import Mathlib

/-!
Verification of the crisis risk assessment engine of the Mental-Wellness-app
repository (`utils/crisis_detection.py`, with the classifier adapter in
`utils/gemini_client.py`).

The lexicon data (`utils/crisis_keywords.py`: `CRISIS_KEYWORDS` and
`SEVERITY_WEIGHTS`) is configuration imported by the detector; all
definitions take it as a parameter, so every theorem quantifies over the
lexicon and the weights.

Strings are handled at the ASCII level (`Char.toLower`, `Char.isAlphanum`),
matching Python `str.lower()` and `re`'s word characters on the ASCII inputs
the system deals with.
-/

namespace CrisisDetection

/-! ## Word-boundary search: `re.search(r'\b' + re.escape(keyword) + r'\b', text_lower)`

The keyword is passed through `re.escape`, so it is matched literally; the
pattern is: word boundary, the literal keyword, word boundary.  A word
boundary `\b` holds at a position where exactly one side is a word character
(`[A-Za-z0-9_]` on ASCII text); out of range counts as a non-word side. -/

/-- Python `str.lower()` on ASCII text: lowercase every character.
(Implemented over the character list so that it evaluates by kernel
reduction; extensionally it is `String.toLower`.) -/
def strLower (s : String) : String :=
  ⟨s.data.map Char.toLower⟩

/-- A regex word character: alphanumeric or underscore. -/
def wordChar (c : Char) : Bool :=
  c.isAlphanum || c == '_'

/-- Whether the character at index `i` of `t` exists and is a word character. -/
def isWordAt (t : List Char) (i : Nat) : Bool :=
  (t[i]?.map wordChar).getD false

/-- Whether the character just before position `i` exists and is a word character. -/
def leftIsWord (t : List Char) (i : Nat) : Bool :=
  match i with
  | 0 => false
  | j + 1 => isWordAt t j

/-- Boundary `\b` holds at position `i` of `t`: the word-character status changes there. -/
def boundaryAt (t : List Char) (i : Nat) : Bool :=
  leftIsWord t i != isWordAt t i

/-- The pattern `\b p \b` (with `p` literal) matches `t` at position `i`. -/
def matchAt (p t : List Char) (i : Nat) : Bool :=
  ((t.drop i).take p.length == p) && boundaryAt t i && boundaryAt t (i + p.length)

/-- True iff `re.search(r'\b' + re.escape(p) + r'\b', t)` finds a match: the pattern
matches at some position of `t`. -/
def searchWord (p t : List Char) : Bool :=
  (List.range (t.length + 1)).any (fun i => matchAt p t i)

/-! ## Data model

The Python code passes dicts around; each construction site uses a fixed key
set, embedded here as structures. -/

/-- The dict returned by `CrisisDetector._keyword_based_detection`. -/
structure KeywordRisk where
  risk_level : String
  score : Nat
  detected_keywords : List (String × String)
  method : String
deriving Repr, DecidableEq

/-- The dict shape produced by `GeminiClient.analyze_text_for_crisis` and by
the fallback branches in `CrisisDetector.analyze_text_for_crisis`
(`risk_level`, `keywords_detected`, `analysis`). -/
structure AiAnalysis where
  risk_level : String
  keywords_detected : List String
  analysis : String
deriving Repr, DecidableEq

/-- The dict returned by `CrisisDetector._combine_risk_assessments`. -/
structure Combined where
  final_risk_level : String
  keyword_analysis : KeywordRisk
  ai_analysis : AiAnalysis
  requires_intervention : Bool
  immediate_crisis : Bool
deriving Repr, DecidableEq

/-- A lexicon: `CRISIS_KEYWORDS` is a dict category → list of phrases,
embedded as an association list in iteration order. -/
abbrev Lexicon := List (String × List String)

/-- Severity weights: `SEVERITY_WEIGHTS` is a dict category → weight. -/
abbrev Weights := List (String × Nat)

/-- Python `self.severity_weights.get(category, 1)`. -/
def weightOf (w : Weights) (cat : String) : Nat :=
  ((w.find? (fun p => p.1 == cat)).map Prod.snd).getD 1

/-! ## Keyword scorer -/

/-- The hit list accumulated by the nested loop in
`_keyword_based_detection`: for each `(category, keywords)` of the lexicon in
order, for each keyword in order, `(keyword, category)` is appended when
`re.search(r'\b kw \b', text_lower)` finds a match. -/
def detectPairs (lex : Lexicon) (tl : List Char) : List (String × String) :=
  match lex with
  | [] => []
  | (cat, kws) :: rest =>
      (kws.filter (fun k => searchWord k.data tl)).map (fun k => (k, cat))
        ++ detectPairs rest tl

/-- Embeds `CrisisDetector._keyword_based_detection`.  The loop accumulates
`total_score` by adding `severity_weights.get(category, 1)` once per recorded
hit, i.e. the total is the sum of the weights over the hit list. -/
def keyword_based_detection (lex : Lexicon) (w : Weights) (text : String) :
    KeywordRisk :=
  let tl := (strLower text).data
  let hits := detectPairs lex tl
  let total := (hits.map (fun pc => weightOf w pc.2)).sum
  { risk_level :=
      if 10 ≤ total then "critical"
      else if 6 ≤ total then "high"
      else if 3 ≤ total then "moderate"
      else "low"
    score := total
    detected_keywords := hits
    method := "keyword_analysis" }

/-! ## Risk combiner -/

/-- The module-level `_CANON_LEVELS` dict, in source order. -/
def canonLevels : List (String × String) :=
  [("low", "LOW"), ("moderate", "MODERATE"), ("high", "HIGH"),
   ("critical", "CRITICAL"), ("severe", "CRITICAL"), ("SEVERE", "CRITICAL"),
   ("LOW", "LOW"), ("MODERATE", "MODERATE"), ("HIGH", "HIGH")]

/-- Python `_CANON_LEVELS.get(k, df)`. -/
def canonGetD (k df : String) : String :=
  ((canonLevels.find? (fun p => p.1 == k)).map Prod.snd).getD df

/-- Computes `ai_level = _CANON_LEVELS.get(str(raw_ai).lower(), _CANON_LEVELS.get(str(raw_ai), "LOW")).lower()`. -/
def aiNormLevel (raw : String) : String :=
  strLower (canonGetD (strLower raw) (canonGetD raw "LOW"))

/-- The local `order = ["low", "moderate", "high", "critical"]`. -/
def order : List String := ["low", "moderate", "high", "critical"]

/-- Python `order.index(s)` on the fixed four-element `order` list, with the
`except ValueError` branch mapping an absent level to index 0. -/
def orderIndexOr0 (s : String) : Nat :=
  if s == "low" then 0
  else if s == "moderate" then 1
  else if s == "high" then 2
  else if s == "critical" then 3
  else 0

/-- The escalation condition of `_combine_risk_assessments`:
`keyword_risk.get("risk_level") == "critical" or str(raw_ai).lower() in ("critical", "severe")`. -/
def escalates (kLvl rawAi : String) : Bool :=
  kLvl == "critical" || (strLower rawAi == "critical" || strLower rawAi == "severe")

/-- Level `combined_level` as computed by `_combine_risk_assessments` from the two
`risk_level` entries: `order[max(a_idx, k_idx)]`, overridden to `"critical"`
when the escalation condition holds.  Both indices are at most 3, so the
Python indexing `order[...]` never raises; the `getD` default is dead. -/
def combinedLevel (kLvl rawAi : String) : String :=
  let aIdx := orderIndexOr0 (aiNormLevel rawAi)
  let kIdx := orderIndexOr0 kLvl
  let base := order.getD (max aIdx kIdx) "low"
  if escalates kLvl rawAi then "critical" else base

/-- Embeds `CrisisDetector._combine_risk_assessments`.  (`keyword_risk.get("risk_level", "low")`
and `ai_analysis.get("risk_level", "LOW")` read the `risk_level` fields, which
every construction site populates.) -/
def combine_risk_assessments (kr : KeywordRisk) (ai : AiAnalysis) : Combined :=
  let lvl := combinedLevel kr.risk_level ai.risk_level
  { final_risk_level := lvl
    keyword_analysis := kr
    ai_analysis := ai
    requires_intervention := ["high", "critical"].contains lvl
    immediate_crisis := lvl == "critical" }

/-! ## Analysis entry point -/

/-- The semantic-classifier dependency of `CrisisDetector`: `none` when
construction left `self.gemini_client = None`; otherwise the outcome of
`gemini_client.analyze_text_for_crisis(text)`, where `Except.error` models
the call raising an exception. -/
abbrev ClassifierOutcome := Option (Except Unit AiAnalysis)

/-- Embeds `CrisisDetector.analyze_text_for_crisis`.  The result type `Except Unit
Combined` records whether an exception escapes the method: the classifier
call is the only fallible step, and its exceptions are caught and replaced by
the `{"risk_level": "MODERATE", ...}` fallback, while an absent client is
replaced by the `{"risk_level": "LOW", ...}` degraded result. -/
def analyze_text_for_crisis (lex : Lexicon) (w : Weights)
    (client : ClassifierOutcome) (text : String) : Except Unit Combined :=
  let keyword_risk := keyword_based_detection lex w text
  let ai_analysis : AiAnalysis :=
    match client with
    | some (.ok a) => a
    | some (.error _) =>
        { risk_level := "MODERATE", keywords_detected := [], analysis := "AI error" }
    | none =>
        { risk_level := "LOW", keywords_detected := [],
          analysis := "AI client unavailable." }
  .ok (combine_risk_assessments keyword_risk ai_analysis)

/-! ## Intervention -/

/-- The `st.error` banner of `_show_immediate_crisis_resources`. -/
def immediateBanner : String :=
  "🚨 IMMEDIATE CRISIS RESOURCES — If you're in immediate danger call emergency services."

/-- The `st.warning` banner of `_show_support_resources`. -/
def supportBanner : String :=
  "💛 We're here to support you — consider contacting local support or using coping strategies."

/-- The observable outcome of `trigger_crisis_intervention`: the banner shown
to the user (if any), the tag passed to `data_manager.log_crisis_event` (if a
data manager is present and the branch attempts to log), and the returned
boolean. -/
structure InterventionOutcome where
  banner : Option String
  logTag : Option String
  result : Bool
deriving Repr, DecidableEq

/-- Embeds `CrisisDetector.trigger_crisis_intervention`.  Here `dm` is the
`st.session_state.get('data_manager')` dependency; its `log_crisis_event` may
raise (`Except.error`), but both call sites wrap it in
`try ... except Exception: pass`, so the call's outcome is discarded. -/
def trigger_crisis_intervention (dm : Option (String → Except Unit Unit))
    (ra : Combined) : InterventionOutcome :=
  if ra.immediate_crisis then
    let _attempt := dm.map (fun f => f "immediate")
    { banner := some immediateBanner
      logTag := dm.map (fun _ => "immediate")
      result := ra.requires_intervention }
  else if ra.requires_intervention then
    let _attempt := dm.map (fun f => f "support")
    { banner := some supportBanner
      logTag := dm.map (fun _ => "support")
      result := ra.requires_intervention }
  else
    { banner := none, logTag := none, result := ra.requires_intervention }

/-! ## Helper lemmas -/

/-- Every index produced by `orderIndexOr0` is at most 3. -/
theorem orderIndexOr0_le_three (s : String) : orderIndexOr0 s ≤ 3 := by
  unfold orderIndexOr0
  repeat' split
  all_goals omega

/-- Indexing `order` with a valid index and reading the index back round-trips. -/
theorem orderIndexOr0_getD (m : Nat) (hm : m ≤ 3) :
    orderIndexOr0 (order.getD m "low") = m := by
  interval_cases m <;> decide

/-- The final level of a combined verdict is `combinedLevel` of the two
`risk_level` entries. -/
theorem final_level_eq (kr : KeywordRisk) (ai : AiAnalysis) :
    (combine_risk_assessments kr ai).final_risk_level =
      combinedLevel kr.risk_level ai.risk_level := rfl

/-- The keyword tier is the threshold chain applied to the keyword score. -/
theorem keyword_level_eq (lex : Lexicon) (w : Weights) (text : String) :
    (keyword_based_detection lex w text).risk_level =
      (if 10 ≤ (keyword_based_detection lex w text).score then "critical"
       else if 6 ≤ (keyword_based_detection lex w text).score then "high"
       else if 3 ≤ (keyword_based_detection lex w text).score then "moderate"
       else "low") := rfl

/-- The recorded hits are exactly `detectPairs` over the lowercased text. -/
theorem detected_keywords_eq (lex : Lexicon) (w : Weights) (text : String) :
    (keyword_based_detection lex w text).detected_keywords =
      detectPairs lex (strLower text).data := rfl

/-- A successful word search yields a matching position. -/
theorem searchWord_exists {p t : List Char} (h : searchWord p t = true) :
    ∃ i, matchAt p t i = true := by
  unfold searchWord at h
  rw [List.any_eq_true] at h
  obtain ⟨i, _, hm⟩ := h
  exact ⟨i, hm⟩

/-- Word-character status only depends on the optional character looked up. -/
theorem isWordAt_congr {t u : List Char} {i j : Nat} (h : t[i]? = u[j]?) :
    isWordAt t i = isWordAt u j := by
  unfold isWordAt
  rw [h]

/-- The left neighbour of a successor position is the character at the
predecessor index. -/
theorem leftIsWord_succ (t : List Char) (j : Nat) :
    leftIsWord t (j + 1) = isWordAt t j := rfl

/-- A `\b p \b` search hit for a phrase that begins and ends with word
characters is a whole-word occurrence: the phrase appears verbatim and the
characters adjacent to it (if any) are not word characters, so the occurrence
is never inside a longer alphanumeric run. -/
theorem wholeWord_of_searchWord {p t : List Char}
    (hh : isWordAt p 0 = true) (hl : isWordAt p (p.length - 1) = true)
    (h : searchWord p t = true) :
    ∃ i, (t.drop i).take p.length = p ∧ leftIsWord t i = false ∧
      isWordAt t (i + p.length) = false := by
  have hne : p ≠ [] := by
    intro he
    rw [he] at hh
    simp [isWordAt] at hh
  have hlen : 0 < p.length := List.length_pos.mpr hne
  obtain ⟨i, hm⟩ := searchWord_exists h
  unfold matchAt at hm
  rw [Bool.and_eq_true, Bool.and_eq_true] at hm
  obtain ⟨⟨hsub, hb1⟩, hb2⟩ := hm
  rw [beq_iff_eq] at hsub
  have key : ∀ j, j < p.length → t[i + j]? = p[j]? := by
    intro j hj
    calc t[i + j]? = (t.drop i)[j]? := (List.getElem?_drop t i j).symm
      _ = ((t.drop i).take p.length)[j]? := (List.getElem?_take_of_lt hj).symm
      _ = p[j]? := by rw [hsub]
  refine ⟨i, hsub, ?_, ?_⟩
  · -- the character before the match (if any) is not a word character
    have hwi : isWordAt t i = true := by
      have := isWordAt_congr (t := t) (u := p) (i := i) (j := 0)
        (by simpa using key 0 hlen)
      rw [this, hh]
    unfold boundaryAt at hb1
    rw [hwi] at hb1
    cases hlw : leftIsWord t i with
    | false => rfl
    | true => rw [hlw] at hb1; simp at hb1
  · -- the character after the match (if any) is not a word character
    have hlast : leftIsWord t (i + p.length) = true := by
      have hstep : i + p.length = (i + (p.length - 1)) + 1 := by omega
      rw [hstep, leftIsWord_succ]
      have := isWordAt_congr (t := t) (u := p) (i := i + (p.length - 1))
        (j := p.length - 1) (key (p.length - 1) (by omega))
      rw [this, hl]
    unfold boundaryAt at hb2
    rw [hlast] at hb2
    cases hrw : isWordAt t (i + p.length) with
    | false => rfl
    | true => rw [hrw] at hb2; simp at hb2

/-- Every recorded hit pair passed the word search on the scanned text. -/
theorem mem_detectPairs_searchWord {lex : Lexicon} {tl : List Char}
    {ph cat : String} (h : (ph, cat) ∈ detectPairs lex tl) :
    searchWord ph.data tl = true := by
  induction lex with
  | nil => simp [detectPairs] at h
  | cons e rest ih =>
      obtain ⟨c, kws⟩ := e
      unfold detectPairs at h
      rw [List.mem_append] at h
      rcases h with h | h
      · rw [List.mem_map] at h
        obtain ⟨k, hk, hek⟩ := h
        rw [List.mem_filter] at hk
        cases hek
        exact hk.2
      · exact ih h

/-- All `(phrase, category)` pairs of a lexicon, in iteration order. -/
def lexPairs : Lexicon → List (String × String)
  | [] => []
  | (cat, kws) :: rest => kws.map (fun k => (k, cat)) ++ lexPairs rest

/-- The hit list is the lexicon's pair list filtered by the word search. -/
theorem detectPairs_eq_filter (lex : Lexicon) (tl : List Char) :
    detectPairs lex tl =
      (lexPairs lex).filter (fun pc => searchWord pc.1.data tl) := by
  induction lex with
  | nil => rfl
  | cons e rest ih =>
      obtain ⟨c, kws⟩ := e
      unfold detectPairs lexPairs
      rw [List.filter_append, ih, List.filter_map]
      rfl

/-- The category of any lexicon pair is one of the lexicon's categories. -/
theorem mem_lexPairs_snd {lex : Lexicon} {pc : String × String}
    (h : pc ∈ lexPairs lex) : pc.2 ∈ lex.map Prod.fst := by
  induction lex with
  | nil => simp [lexPairs] at h
  | cons e rest ih =>
      obtain ⟨c, kws⟩ := e
      unfold lexPairs at h
      rw [List.mem_append] at h
      rcases h with h | h
      · rw [List.mem_map] at h
        obtain ⟨k, _, hek⟩ := h
        cases hek
        simp
      · simp [ih h]

/-- With distinct categories and duplicate-free phrase lists, the lexicon's
pair list has no duplicates. -/
theorem lexPairs_nodup {lex : Lexicon} (hcat : (lex.map Prod.fst).Nodup)
    (hkw : ∀ e ∈ lex, (Prod.snd e).Nodup) : (lexPairs lex).Nodup := by
  induction lex with
  | nil => simp [lexPairs]
  | cons e rest ih =>
      obtain ⟨c, kws⟩ := e
      rw [List.map_cons, List.nodup_cons] at hcat
      unfold lexPairs
      refine List.Nodup.append ?_
        (ih hcat.2 (fun x hx => hkw x (List.mem_cons_of_mem _ hx))) ?_
      · exact (hkw (c, kws) (List.mem_cons_self _ _)).map
          (fun a b hab => by simpa using congrArg Prod.fst hab)
      · intro pc hpc hpc'
        rw [List.mem_map] at hpc
        obtain ⟨k, _, hek⟩ := hpc
        have h2 := mem_lexPairs_snd hpc'
        rw [← hek] at h2
        exact hcat.1 h2

/-! ## Claims -/

/-- **C1.** For every keyword assessment and every semantic assessment, the
final tier produced by the combiner is at least the maximum of the two
normalized source tiers in the order low < moderate < high < critical
(compared via their ordinals), and it equals that maximum whenever the
escalation override does not fire. -/
theorem combiner_fail_safe_high (kr : KeywordRisk) (ai : AiAnalysis) :
    max (orderIndexOr0 kr.risk_level) (orderIndexOr0 (aiNormLevel ai.risk_level))
        ≤ orderIndexOr0 (combine_risk_assessments kr ai).final_risk_level ∧
      (escalates kr.risk_level ai.risk_level = false →
        orderIndexOr0 (combine_risk_assessments kr ai).final_risk_level =
          max (orderIndexOr0 kr.risk_level)
            (orderIndexOr0 (aiNormLevel ai.risk_level))) := by
  have hk := orderIndexOr0_le_three kr.risk_level
  have ha := orderIndexOr0_le_three (aiNormLevel ai.risk_level)
  unfold combine_risk_assessments combinedLevel
  cases h : escalates kr.risk_level ai.risk_level with
  | true =>
      refine ⟨?_, ?_⟩
      · simp only [h, if_true]
        have h3 : orderIndexOr0 "critical" = 3 := by decide
        show max _ _ ≤ orderIndexOr0 "critical"
        rw [h3]
        omega
      · intro hfalse
        simp [h] at hfalse
  | false =>
      have hmax : max (orderIndexOr0 (aiNormLevel ai.risk_level))
          (orderIndexOr0 kr.risk_level) ≤ 3 := by omega
      refine ⟨?_, ?_⟩ <;>
        simp only [h, if_false, Bool.false_eq_true,
          orderIndexOr0_getD _ hmax] <;>
          omega

/-- Witness for C1: a concrete moderate/high pair where the override does not
fire and the final tier index equals the maximum of the source indices. -/
theorem combiner_fail_safe_high_witness :
    escalates "moderate" "HIGH" = false ∧
      orderIndexOr0 (combine_risk_assessments
          ⟨"moderate", 4, [], "keyword_analysis"⟩
          ⟨"HIGH", [], "r"⟩).final_risk_level =
        max (orderIndexOr0 "moderate") (orderIndexOr0 (aiNormLevel "HIGH")) :=
  ⟨by decide,
    (combiner_fail_safe_high ⟨"moderate", 4, [], "keyword_analysis"⟩
      ⟨"HIGH", [], "r"⟩).2 (by decide)⟩

/-- **C2.** Whenever the semantic classifier's raw risk-level label lowercases
to "severe" or "critical", the combiner forces the final tier to critical,
for every keyword assessment (in particular a LOW one). -/
theorem escalation_forces_critical (kr : KeywordRisk) (ai : AiAnalysis)
    (h : strLower ai.risk_level = "severe" ∨ strLower ai.risk_level = "critical") :
    (combine_risk_assessments kr ai).final_risk_level = "critical" := by
  unfold combine_risk_assessments combinedLevel escalates
  rcases h with h | h <;> simp [h]

/-- Witness for C2: raw label "SEVERE" with keyword tier low still yields a
critical final tier. -/
theorem escalation_forces_critical_witness :
    (combine_risk_assessments ⟨"low", 0, [], "keyword_analysis"⟩
        ⟨"SEVERE", [], "Immediate danger."⟩).final_risk_level = "critical" :=
  escalation_forces_critical _ _ (Or.inl (by decide))

/-- **C3.** For every combined verdict produced by the combiner,
`requires_intervention` is true iff the final tier is high or critical, and
`immediate_crisis` is true iff the final tier is critical. -/
theorem intervention_booleans (kr : KeywordRisk) (ai : AiAnalysis) :
    ((combine_risk_assessments kr ai).requires_intervention = true ↔
        (combine_risk_assessments kr ai).final_risk_level = "high" ∨
          (combine_risk_assessments kr ai).final_risk_level = "critical") ∧
      ((combine_risk_assessments kr ai).immediate_crisis = true ↔
        (combine_risk_assessments kr ai).final_risk_level = "critical") := by
  unfold combine_risk_assessments
  simp only [List.contains, List.elem]
  cases hb : combinedLevel kr.risk_level ai.risk_level == "high" <;>
    cases hc : combinedLevel kr.risk_level ai.risk_level == "critical" <;>
      simp_all

/-- **C4.** For every lexicon, weight table and input text, the keyword scorer
maps the total score to a tier by exact inclusive thresholds: critical iff
the total is at least 10, high iff it is in [6, 10), moderate iff it is in
[3, 6), and low iff it is below 3. -/
theorem keyword_tier_thresholds (lex : Lexicon) (w : Weights) (text : String) :
    ((keyword_based_detection lex w text).risk_level = "critical" ↔
        10 ≤ (keyword_based_detection lex w text).score) ∧
      ((keyword_based_detection lex w text).risk_level = "high" ↔
        6 ≤ (keyword_based_detection lex w text).score ∧
          (keyword_based_detection lex w text).score < 10) ∧
      ((keyword_based_detection lex w text).risk_level = "moderate" ↔
        3 ≤ (keyword_based_detection lex w text).score ∧
          (keyword_based_detection lex w text).score < 6) ∧
      ((keyword_based_detection lex w text).risk_level = "low" ↔
        (keyword_based_detection lex w text).score < 3) := by
  unfold keyword_based_detection
  generalize ((detectPairs lex (strLower text).data).map
      (fun pc => weightOf w pc.2)).sum = t
  simp only
  split_ifs with h1 h2 h3 <;>
    refine ⟨?_, ?_, ?_, ?_⟩ <;>
      constructor <;>
        intro hx <;>
          first
            | rfl
            | omega
            | (exfalso; revert hx; decide)

/-- **C5.** For every input, when the semantic classifier call raises, the
analysis returns normally (`Except.ok`) with the tier-MODERATE fallback
assessment substituted before combining; the fallback's normalized tier is
moderate (index 1), not low. -/
theorem classifier_exception_fallback (lex : Lexicon) (w : Weights)
    (text : String) (e : Unit) :
    analyze_text_for_crisis lex w (some (.error e)) text =
        .ok (combine_risk_assessments (keyword_based_detection lex w text)
          ⟨"MODERATE", [], "AI error"⟩) ∧
      aiNormLevel "MODERATE" = "moderate" ∧
        orderIndexOr0 (aiNormLevel "MODERATE") = 1 :=
  ⟨rfl, by decide, by decide⟩

/-- **C6.** With no classifier configured, every analysis uses the semantic
side "LOW" / "AI client unavailable.", and whenever the keyword score reaches
6 the final verdict is high or critical from the keyword path alone. -/
theorem unavailable_classifier_mode (lex : Lexicon) (w : Weights) (text : String) :
    analyze_text_for_crisis lex w none text =
        .ok (combine_risk_assessments (keyword_based_detection lex w text)
          ⟨"LOW", [], "AI client unavailable."⟩) ∧
      (combine_risk_assessments (keyword_based_detection lex w text)
          ⟨"LOW", [], "AI client unavailable."⟩).ai_analysis =
        ⟨"LOW", [], "AI client unavailable."⟩ ∧
      (6 ≤ (keyword_based_detection lex w text).score →
        (combine_risk_assessments (keyword_based_detection lex w text)
            ⟨"LOW", [], "AI client unavailable."⟩).final_risk_level = "high" ∨
          (combine_risk_assessments (keyword_based_detection lex w text)
              ⟨"LOW", [], "AI client unavailable."⟩).final_risk_level =
            "critical") := by
  refine ⟨rfl, rfl, ?_⟩
  intro h6
  rw [final_level_eq, keyword_level_eq]
  split_ifs with h1
  · exact Or.inr (by decide)
  · exact Or.inl (by decide)

/-- Witness for C6: a lexicon carrying "end it all" at weight 8 pushes the
text "I want to end it all" to a high-or-critical verdict with the classifier
absent. -/
theorem unavailable_classifier_mode_witness :
    6 ≤ (keyword_based_detection [("suicidal_ideation", ["end it all"])]
        [("suicidal_ideation", 8)] "I want to end it all").score ∧
      ((combine_risk_assessments (keyword_based_detection
            [("suicidal_ideation", ["end it all"])] [("suicidal_ideation", 8)]
            "I want to end it all")
          ⟨"LOW", [], "AI client unavailable."⟩).final_risk_level = "high" ∨
        (combine_risk_assessments (keyword_based_detection
              [("suicidal_ideation", ["end it all"])] [("suicidal_ideation", 8)]
              "I want to end it all")
            ⟨"LOW", [], "AI client unavailable."⟩).final_risk_level =
          "critical") :=
  ⟨by decide,
    (unavailable_classifier_mode [("suicidal_ideation", ["end it all"])]
      [("suicidal_ideation", 8)] "I want to end it all").2.2 (by decide)⟩

/-- **C7.** A phrase beginning and ending with word characters is recorded as
a hit only when it occurs in the lowercased text as a whole word: the phrase
appears verbatim and neither neighbour (if present) is a word character, so a
hit never lies inside a longer alphanumeric run.  In particular, the text
"They sang in harmony" produces no hit for lexicon phrase "harm". -/
theorem keyword_whole_word_only :
    (∀ (lex : Lexicon) (w : Weights) (text ph cat : String),
        isWordAt ph.data 0 = true →
        isWordAt ph.data (ph.data.length - 1) = true →
        (ph, cat) ∈ (keyword_based_detection lex w text).detected_keywords →
        ∃ i, ((strLower text).data.drop i).take ph.data.length = ph.data ∧
          leftIsWord (strLower text).data i = false ∧
          isWordAt (strLower text).data (i + ph.data.length) = false) ∧
      (keyword_based_detection [("self_harm", ["harm"])] [("self_harm", 5)]
          "They sang in harmony").detected_keywords = [] := by
  constructor
  · intro lex w text ph cat hh hl hmem
    rw [detected_keywords_eq] at hmem
    exact wholeWord_of_searchWord hh hl (mem_detectPairs_searchWord hmem)
  · decide

/-- Witness for C7: the recorded hit of "harm" in "Fear of self harm." is a
whole-word occurrence of the phrase. -/
theorem keyword_whole_word_only_witness :
    ∃ i, ((strLower "Fear of self harm.").data.drop i).take "harm".data.length =
        "harm".data ∧
      leftIsWord (strLower "Fear of self harm.").data i = false ∧
      isWordAt (strLower "Fear of self harm.").data (i + "harm".data.length) =
        false :=
  keyword_whole_word_only.1 [("self_harm", ["harm"])] [("self_harm", 5)]
    "Fear of self harm." "harm" "self_harm" (by decide) (by decide) (by decide)

/-- Counterexample to C8 as stated: passing the semantic assessment (raw label
"SEVERE") in the keyword position and the low keyword assessment in the
semantic position flips the final tier from critical to low, because only the
semantic side is canonicalized through `_CANON_LEVELS` and the keyword-side
escalation test compares against the exact string "critical". -/
theorem combiner_not_symmetric :
    (combine_risk_assessments ⟨"low", 0, [], "keyword_analysis"⟩
        ⟨"SEVERE", [], "r"⟩).final_risk_level = "critical" ∧
      (combine_risk_assessments ⟨"SEVERE", 0, [], "keyword_analysis"⟩
          ⟨"low", [], "r"⟩).final_risk_level = "low" ∧
      ("critical" : String) ≠ "low" := by decide

/-- **C8 (amended).** The combiner is order-independent on canonical
lowercase tiers: when both risk-level labels belong to
`["low", "moderate", "high", "critical"]`, swapping the keyword and semantic
positions yields the same final tier. -/
theorem combiner_symmetric_on_canonical (x y : String) (s : Nat)
    (kd : List (String × String)) (m : String) (kws : List String) (a2 : String)
    (hx : x ∈ order) (hy : y ∈ order) :
    (combine_risk_assessments ⟨x, s, kd, m⟩ ⟨y, kws, a2⟩).final_risk_level =
      (combine_risk_assessments ⟨y, s, kd, m⟩ ⟨x, kws, a2⟩).final_risk_level := by
  rw [final_level_eq, final_level_eq]
  show combinedLevel x y = combinedLevel y x
  simp only [order, List.mem_cons, List.not_mem_nil, or_false] at hx hy
  rcases hx with rfl | rfl | rfl | rfl <;> rcases hy with rfl | rfl | rfl | rfl <;>
    decide

/-- Witness for C8 (amended): swapping canonical "low" and "high" leaves the
final tier unchanged. -/
theorem combiner_symmetric_on_canonical_witness :
    ("low" ∈ order ∧ "high" ∈ order) ∧
      (combine_risk_assessments ⟨"low", 0, [], "keyword_analysis"⟩
          ⟨"high", [], "r"⟩).final_risk_level =
        (combine_risk_assessments ⟨"high", 0, [], "keyword_analysis"⟩
            ⟨"low", [], "r"⟩).final_risk_level :=
  ⟨⟨by decide, by decide⟩,
    combiner_symmetric_on_canonical "low" "high" 0 [] "keyword_analysis" [] "r"
      (by decide) (by decide)⟩

/-- **C9.** For every verdict and any behaviour of the event log (including
one that always raises), `trigger_crisis_intervention` produces the same
outcome as with a succeeding log, returns the verdict's
`requires_intervention` boolean unchanged, and shows the tier-appropriate
resource banner. -/
theorem logging_failure_swallowed (f : String → Except Unit Unit) (ra : Combined) :
    trigger_crisis_intervention (some f) ra =
        trigger_crisis_intervention (some (fun _ => .ok ())) ra ∧
      (trigger_crisis_intervention (some f) ra).result =
        ra.requires_intervention ∧
      (ra.immediate_crisis = true →
        (trigger_crisis_intervention (some f) ra).banner = some immediateBanner) ∧
      (ra.immediate_crisis = false → ra.requires_intervention = true →
        (trigger_crisis_intervention (some f) ra).banner = some supportBanner) := by
  unfold trigger_crisis_intervention
  cases hi : ra.immediate_crisis <;> cases hr : ra.requires_intervention <;>
    simp [hi, hr]

/-- Witness for C9: with an always-failing log, a critical verdict still shows
the immediate-crisis banner and still returns its intervention boolean. -/
theorem logging_failure_swallowed_witness :
    (combine_risk_assessments ⟨"critical", 10, [], "keyword_analysis"⟩
        ⟨"LOW", [], "r"⟩).immediate_crisis = true ∧
      (trigger_crisis_intervention (some (fun _ => Except.error ()))
          (combine_risk_assessments ⟨"critical", 10, [], "keyword_analysis"⟩
            ⟨"LOW", [], "r"⟩)).banner = some immediateBanner ∧
      (trigger_crisis_intervention (some (fun _ => Except.error ()))
          (combine_risk_assessments ⟨"critical", 10, [], "keyword_analysis"⟩
            ⟨"LOW", [], "r"⟩)).result =
        (combine_risk_assessments ⟨"critical", 10, [], "keyword_analysis"⟩
            ⟨"LOW", [], "r"⟩).requires_intervention :=
  ⟨by decide,
    (logging_failure_swallowed (fun _ => Except.error ())
        (combine_risk_assessments ⟨"critical", 10, [], "keyword_analysis"⟩
          ⟨"LOW", [], "r"⟩)).2.2.1 (by decide),
    (logging_failure_swallowed (fun _ => Except.error ())
        (combine_risk_assessments ⟨"critical", 10, [], "keyword_analysis"⟩
          ⟨"LOW", [], "r"⟩)).2.1⟩

/-- **C10.** With distinct categories (dict keys) and duplicate-free phrase
lists, the hit list is exactly the duplicate-free list of distinct
`(phrase, category)` pairs whose phrase occurs at least once as a whole word
in the text, and the score is the sum of the category weights over those
pairs — so each pair contributes at most once however often the phrase
occurs. -/
theorem keyword_score_distinct_pairs (lex : Lexicon) (w : Weights)
    (text : String) (hcat : (lex.map Prod.fst).Nodup)
    (hkw : ∀ e ∈ lex, (Prod.snd e).Nodup) :
    (keyword_based_detection lex w text).detected_keywords =
        (lexPairs lex).filter
          (fun pc => searchWord pc.1.data (strLower text).data) ∧
      (keyword_based_detection lex w text).detected_keywords.Nodup ∧
      (keyword_based_detection lex w text).score =
        (((lexPairs lex).filter
            (fun pc => searchWord pc.1.data (strLower text).data)).map
          (fun pc => weightOf w pc.2)).sum := by
  have he : (keyword_based_detection lex w text).detected_keywords =
      (lexPairs lex).filter (fun pc => searchWord pc.1.data (strLower text).data) := by
    rw [detected_keywords_eq, detectPairs_eq_filter]
  refine ⟨he, ?_, ?_⟩
  · rw [he]
    exact (lexPairs_nodup hcat hkw).filter _
  · show ((detectPairs lex (strLower text).data).map
        (fun pc => weightOf w pc.2)).sum = _
    rw [detectPairs_eq_filter]

/-- Witness for C10: a two-category lexicon on a text repeating "harm" three
times; the pair ("harm", "self_harm") is counted once. -/
theorem keyword_score_distinct_pairs_witness :
    (keyword_based_detection
          [("self_harm", ["harm", "cut"]), ("hopelessness", ["hopeless"])]
          [("self_harm", 5), ("hopelessness", 2)]
          "Harm, harm and harm again; hopeless.").detected_keywords =
        (lexPairs [("self_harm", ["harm", "cut"]), ("hopelessness", ["hopeless"])]).filter
          (fun pc => searchWord pc.1.data
            (strLower "Harm, harm and harm again; hopeless.").data) ∧
      (keyword_based_detection
          [("self_harm", ["harm", "cut"]), ("hopelessness", ["hopeless"])]
          [("self_harm", 5), ("hopelessness", 2)]
          "Harm, harm and harm again; hopeless.").detected_keywords.Nodup ∧
      (keyword_based_detection
          [("self_harm", ["harm", "cut"]), ("hopelessness", ["hopeless"])]
          [("self_harm", 5), ("hopelessness", 2)]
          "Harm, harm and harm again; hopeless.").score =
        (((lexPairs [("self_harm", ["harm", "cut"]), ("hopelessness", ["hopeless"])]).filter
            (fun pc => searchWord pc.1.data
              (strLower "Harm, harm and harm again; hopeless.").data)).map
          (fun pc => weightOf [("self_harm", 5), ("hopelessness", 2)] pc.2)).sum :=
  keyword_score_distinct_pairs
    [("self_harm", ["harm", "cut"]), ("hopelessness", ["hopeless"])]
    [("self_harm", 5), ("hopelessness", 2)]
    "Harm, harm and harm again; hopeless." (by decide) (by decide)

end CrisisDetection
